import Mathlib

/-!
Verification of the donation-processing backend
(`backend_prod_ready.py`) against its specification.

The file shallowly embeds the backend's request handlers and helper
functions, in dummy mode (`USE_RAZORPAY` disabled): request bodies are
JSON objects, Python truthiness and `int()` coercion are modelled
explicitly, nondeterministic inputs (current time, generated ids,
external e-mail outcome, PDF bytes produced by the drawing library) are
parameters, and the certificate directory is an explicit association
list of file names to byte contents.
-/

namespace NgoBackend

/-- JSON values as delivered by `request.get_json()`: Python `None`,
`bool`, `int`, `str`, `list`, `dict`.  Numbers are modelled as integers
(the fields the backend reads numerically are integer amounts). -/
inductive Json where
  | null : Json
  | bool (b : Bool) : Json
  | num (n : Int) : Json
  | str (s : String) : Json
  | arr (elems : List Json) : Json
  | obj (fields : List (String × Json)) : Json
deriving Repr

/-- A parsed request body: a Python dict from string keys to values. -/
def Payload := List (String × Json)

/-- `d.get(k)` on a Python dict: the value when the key is present. -/
def plookup (p : Payload) (k : String) : Option Json :=
  List.lookup k p

/-- `d.get(k)` with Python `None` for a missing key. -/
def pget (p : Payload) (k : String) : Json :=
  (plookup p k).getD .null

/-- Python truthiness of a JSON value: `None`, `False`, `0`, `""`,
`[]` and `{}` are falsy, all other values truthy. -/
def truthy : Json → Bool
  | .null => false
  | .bool b => b
  | .num n => n != 0
  | .str s => s != ""
  | .arr es => !es.isEmpty
  | .obj fs => !fs.isEmpty

/-- `x is True` in Python: the value is the boolean `True` itself. -/
def isPyTrue : Json → Bool
  | .bool b => b
  | _ => false

/-- `x == s` in Python for a string literal `s`: equal only when `x`
is that string (comparison with a non-string value is `False`). -/
def eqStr : Json → String → Bool
  | .str t, s => t == s
  | _, _ => false

/-- Value of a decimal digit character (`ord(c) - ord('0')`). -/
def digitVal (c : Char) : Nat := c.toNat - 48

/-- Decimal digit character for `d < 10` (`chr(ord('0') + d)`). -/
def digitChar (d : Nat) : Char := Char.ofNat (48 + d)

/-- Numeric value of a most-significant-first digit string. -/
def digitsVal (l : List Char) : Nat :=
  l.foldl (fun a c => 10 * a + digitVal c) 0

/-- `int(s)` on a string: strip surrounding spaces, then an optional
sign followed by a nonempty run of decimal digits; anything else
raises `ValueError` (modelled as `none`). -/
def pyStrToInt (s : String) : Option Int :=
  let l := ((s.data.dropWhile (· == ' ')).reverse.dropWhile (· == ' ')).reverse
  let digits? : List Char → Option Nat := fun ds =>
    if ds.isEmpty then none
    else if ds.all Char.isDigit then some (digitsVal ds) else none
  match l with
  | '-' :: rest => (digits? rest).map (fun n => -(n : Int))
  | '+' :: rest => (digits? rest).map Int.ofNat
  | _ => (digits? l).map Int.ofNat

/-- Python `int(x)` on a JSON value: identity on ints, `0`/`1` on
bools, decimal parsing on strings, `TypeError`/`ValueError` (`none`)
on `None`, lists and dicts. -/
def pyInt : Json → Option Int
  | .null => none
  | .bool b => some (if b then 1 else 0)
  | .num n => some n
  | .str s => pyStrToInt s
  | .arr _ => none
  | .obj _ => none

/-- Body of `verify_signature` (the code inside its `try`), dummy
mode: require the three razorpay fields to be present and truthy,
then accept iff `simulate is True` or the signature equals
`"sim_signature"`.  In dummy mode no statement in the body can raise,
so the body always returns normally (`Except.ok`). -/
def verify_signature_body (p : Payload) : Except String (Bool × Option String) :=
  let oid := pget p "razorpay_order_id"
  let pid := pget p "razorpay_payment_id"
  let sig := pget p "razorpay_signature"
  if !(truthy oid && truthy pid && truthy sig) then
    .ok (false, some "Missing fields")
  else if isPyTrue (pget p "simulate") then
    .ok (true, none)
  else if eqStr sig "sim_signature" then
    .ok (true, none)
  else
    .ok (false, some "Dummy mode requires simulate:true or sim_signature")

/-- `verify_signature`: the body wrapped in its `except Exception`
handler, which converts any raised exception into `(False, str(e))`. -/
def verify_signature (p : Payload) : Bool × Option String :=
  match verify_signature_body p with
  | .ok r => r
  | .error e => (false, some e)

/-- Fuel-driven accumulator loop producing the decimal digits of `n`
most significant first (the digits `str(n)` prints).  The fuel is
structural so that the function reduces definitionally; `natDigits`
always supplies enough. -/
def natDigitsAux : Nat → Nat → List Char → List Char
  | 0, _, acc => acc
  | fuel + 1, n, acc =>
    if n = 0 then acc
    else natDigitsAux fuel (n / 10) (digitChar (n % 10) :: acc)

/-- Decimal digit characters of `n`, as `str(n)` prints them. -/
def natDigits (n : Nat) : List Char :=
  if n = 0 then ['0'] else natDigitsAux n n []

/-- `str(n)` for a natural number. -/
def natStr (n : Nat) : String := String.mk (natDigits n)

/-- `order_id.replace("/", "_")` on the character list of the id. -/
def sanitizeChars (l : List Char) : List Char :=
  l.map (fun c => if c = '/' then '_' else c)

/-- Character list of the certificate file name built by
`generate_certificate`:
`f"certificate_{safe_order}_{int(time.time())}.pdf"` where
`safe_order = order_id.replace("/", "_")` and `now` is the Unix time
in whole seconds. -/
def certFilenameData (orderId : List Char) (now : Nat) : List Char :=
  "certificate_".data ++ sanitizeChars orderId ++ '_' :: (natDigits now ++ ".pdf".data)

/-- Certificate file name generated for an order id at time `now`. -/
def certFilename (orderId : String) (now : Nat) : String :=
  String.mk (certFilenameData orderId.data now)

/-- An HTTP response: status code and JSON body. -/
structure Resp where
  status : Nat
  body : Json
deriving Repr

/-- Field access on a JSON object response body. -/
def Json.getKey : Json → String → Option Json
  | .obj fs, k => List.lookup k fs
  | _, _ => none

/-- `_fake_order`: the dummy order object.  `freshId` stands for the
`uuid4().hex[:12]` suffix and `key` for `RAZORPAY_KEY_ID`. -/
def fake_order (amount : Int) (freshId : String) (key : String) : Json :=
  .obj [("id", .str ("order_fake_" ++ freshId)),
        ("amount", .num (amount * 100)),
        ("currency", .str "INR"),
        ("key", .str key),
        ("mode", .str "dummy")]

/-- The `create_order` handler in dummy mode.  `data` is
`request.get_json() or {}`; `int(data.get("amount", 0))` raising gives
400 `Invalid amount`, a non-positive amount gives 400
`Amount must be > 0`, otherwise the dummy order is returned. -/
def create_order (data : Payload) (freshId : String) (key : String) : Resp :=
  match pyInt ((plookup data "amount").getD (.num 0)) with
  | none => ⟨400, .obj [("error", .str "Invalid amount")]⟩
  | some amount =>
    if amount ≤ 0 then ⟨400, .obj [("error", .str "Amount must be > 0")]⟩
    else ⟨200, fake_order amount freshId key⟩

/-- SMTP-related configuration read from the environment; an unset
variable is the empty string (`os.getenv(..., "")`). -/
structure Config where
  smtpHost : String
  smtpUser : String
  smtpPass : String

/-- What the `verify_payment` handler did besides responding: the
certificate file it wrote and kept (name), and whether an e-mail send
was attempted. -/
structure VerifyOutcome where
  resp : Resp
  certWritten : Option String
  emailAttempted : Bool

/-- `payload.get("razorpay_order_id", payload.get("order_id",
f"order_{int(time.time())}"))`: the dict defaults fire only when the
key is absent. -/
def orderIdOf (p : Payload) (now : Nat) : Json :=
  (plookup p "razorpay_order_id").getD
    ((plookup p "order_id").getD (.str ("order_" ++ natStr now)))

/-- The guard `if donor_email and SMTP_HOST and SMTP_USER and
SMTP_PASS:` deciding whether an e-mail send is attempted. -/
def canEmail (cfg : Config) (p : Payload) : Bool :=
  truthy (pget p "email")
    && cfg.smtpHost != "" && cfg.smtpUser != "" && cfg.smtpPass != ""

/-- The e-mail step with its inner `try`/`except`:
`(email_sent, email_error, attempted)`.  When no send is attempted
both flags stay at their initial values `False`/`None`; when the send
raises, the exception is recorded in `email_error`. -/
def emailOutcome (can : Bool) (er : Except String Unit) : Bool × Json × Bool :=
  if can then
    match er with
    | .ok _ => (true, .null, true)
    | .error e => (false, .str e, true)
  else (false, .null, false)

/-- The `verify_payment` handler in dummy mode.  `now` is the Unix
time in whole seconds, and `emailResult` is the outcome the SMTP
session would have (`Except.error e` when `send_email_with_attachment`
raises with message `e`); it is consulted only when an e-mail is
actually attempted.  Exceptions inside the handler's `try` — `int()`
on an unparseable amount, `.replace` on a non-string order id — land
in the outer handler, which responds 500 before any certificate is
written; an exception of the e-mail step is caught by the inner
handler and only recorded in `email_error`. -/
def verify_payment (cfg : Config) (p : Payload) (now : Nat)
    (emailResult : Except String Unit) : VerifyOutcome :=
  match verify_signature p with
  | (false, err) =>
      ⟨⟨400, .obj [("error", .str "Signature verification failed"),
                   ("details", match err with | some m => .str m | none => .null)]⟩,
       none, false⟩
  | (true, _) =>
      match pyInt ((plookup p "amount").getD (.num 0)) with
      | none =>
          ⟨⟨500, .obj [("error", .str "Internal error generating certificate"),
                       ("details", .str "invalid literal for int() with base 10")]⟩,
           none, false⟩
      | some amount =>
          match orderIdOf p now with
          | .str oid =>
              let fname := certFilename oid now
              let certUrl := "/certificate/" ++ fname
              let sent := emailOutcome (canEmail cfg p) emailResult
              ⟨⟨200, .obj [("status", .str "success"),
                           ("message", .str "Dummy payment accepted"),
                           ("payment", .obj [("order_id", .str oid),
                                             ("amount", .num amount)]),
                           ("certificate_url", .str certUrl),
                           ("email_sent", .bool sent.1),
                           ("email_error", sent.2.1)]⟩,
               some fname, sent.2.2⟩
          | _ =>
              ⟨⟨500, .obj [("error", .str "Internal error generating certificate"),
                           ("details", .str "object has no attribute replace")]⟩,
               none, false⟩

/-- The certificate directory: file names mapped to byte contents.
A later write of the same name shadows the earlier one. -/
def Fs := List (String × List Nat)

/-- Writing a file into the certificate directory. -/
def fsWrite (fs : Fs) (name : String) (content : List Nat) : Fs :=
  (name, content) :: fs

/-- `(CERT_DIR / name).exists()` / reading the stored bytes. -/
def fsLookup (fs : Fs) (name : String) : Option (List Nat) :=
  List.lookup name fs

/-- Result of `GET /certificate/<filename>`. -/
inductive ServeResult where
  | notFound : ServeResult
  | file (bytes : List Nat) : ServeResult
deriving Repr, DecidableEq

/-- The `serve_certificate` handler: 404 when the file does not exist
in the certificate directory, otherwise the stored bytes
(`send_from_directory` streams the file on disk unchanged). -/
def serve_certificate (fs : Fs) (filename : String) : ServeResult :=
  match fsLookup fs filename with
  | none => .notFound
  | some bytes => .file bytes

/-- Filesystem effect of `generate_certificate`: it renders a PDF
(`pdfBytes`, the drawing library's output for this donor, amount and
order id) into `CERT_DIR / filename` and returns the file name. -/
def generate_certificate (fs : Fs) (orderId : String) (now : Nat)
    (pdfBytes : List Nat) : String × Fs :=
  let fname := certFilename orderId now
  (fname, fsWrite fs fname pdfBytes)

/-- The suffix of a character list after its last underscore
(the whole list when no underscore occurs). -/
def afterLastUnderscore (l : List Char) : List Char :=
  (l.reverse.takeWhile (fun c => c != '_')).reverse

/-- Whether a JSON value is a string (a non-string order id makes
`order_id.replace` raise `AttributeError`). -/
def isStrJson : Json → Bool
  | .str _ => true
  | _ => false

/-- A well-formed dummy-mode verification payload used as a witness
input: the three razorpay fields present, the simulated signature. -/
def okPayload : Payload :=
  [("razorpay_order_id", .str "order_ok"),
   ("razorpay_payment_id", .str "pay_ok"),
   ("razorpay_signature", .str "sim_signature")]

/-- A verified payload carrying an amount that `int()` cannot parse. -/
def badAmountPayload : Payload :=
  [("razorpay_order_id", .str "order_bad"),
   ("razorpay_payment_id", .str "pay_bad"),
   ("razorpay_signature", .str "sim_signature"),
   ("amount", .str "abc")]

/-- A verified payload with a donor e-mail and a parseable amount. -/
def emailPayload : Payload :=
  [("razorpay_order_id", .str "order_em"),
   ("razorpay_payment_id", .str "pay_em"),
   ("razorpay_signature", .str "sim_signature"),
   ("amount", .num 250),
   ("email", .str "donor@example.com")]

/-- An SMTP configuration with every variable set. -/
def fullConfig : Config := ⟨"smtp.example.com", "user", "pass"⟩

/-! ### Lemmas about decimal digit strings and certificate file names -/

theorem natDigitsAux_acc (f : Nat) : ∀ (n : Nat) (acc : List Char),
    natDigitsAux f n acc = natDigitsAux f n [] ++ acc := by
  induction f with
  | zero => intro n acc; rfl
  | succ f ih =>
      intro n acc
      by_cases hn : n = 0
      · simp [natDigitsAux, hn]
      · rw [natDigitsAux, natDigitsAux, if_neg hn, if_neg hn,
          ih (n / 10) (digitChar (n % 10) :: acc), ih (n / 10) [digitChar (n % 10)]]
        simp

theorem digitVal_digitChar {m : Nat} (h : m < 10) : digitVal (digitChar m) = m := by
  interval_cases m <;> rfl

theorem digitChar_isDigit {m : Nat} (h : m < 10) : (digitChar m).isDigit = true := by
  interval_cases m <;> rfl

theorem digitsVal_append_singleton (l : List Char) (c : Char) :
    digitsVal (l ++ [c]) = 10 * digitsVal l + digitVal c := by
  simp [digitsVal, List.foldl_append]

theorem digitsVal_natDigitsAux (f : Nat) : ∀ n : Nat, n ≤ f →
    digitsVal (natDigitsAux f n []) = n := by
  induction f with
  | zero =>
      intro n hn
      interval_cases n
      rfl
  | succ f ih =>
      intro n hn
      by_cases hz : n = 0
      · simp [natDigitsAux, hz, digitsVal]
      · have hdiv : n / 10 ≤ f := by
          have h1 : n / 10 < n := Nat.div_lt_self (Nat.pos_of_ne_zero hz) (by norm_num)
          omega
        rw [natDigitsAux, if_neg hz, natDigitsAux_acc,
          digitsVal_append_singleton, ih (n / 10) hdiv,
          digitVal_digitChar (Nat.mod_lt n (by norm_num))]
        exact Nat.div_add_mod n 10

theorem digitsVal_natDigits (n : Nat) : digitsVal (natDigits n) = n := by
  by_cases hz : n = 0
  · simp [natDigits, hz]; rfl
  · rw [natDigits, if_neg hz]
    exact digitsVal_natDigitsAux n n (Nat.le_refl n)

theorem natDigits_injective {t₁ t₂ : Nat} (h : natDigits t₁ = natDigits t₂) :
    t₁ = t₂ := by
  have := congrArg digitsVal h
  rwa [digitsVal_natDigits, digitsVal_natDigits] at this

theorem natDigitsAux_mem (f : Nat) : ∀ (n : Nat) (acc : List Char),
    (∀ c ∈ acc, c.isDigit = true) → ∀ c ∈ natDigitsAux f n acc, c.isDigit = true := by
  induction f with
  | zero => intro n acc hacc; exact hacc
  | succ f ih =>
      intro n acc hacc c hc
      by_cases hz : n = 0
      · rw [natDigitsAux, if_pos hz] at hc
        exact hacc c hc
      · rw [natDigitsAux, if_neg hz] at hc
        refine ih (n / 10) _ ?_ c hc
        intro d hd
        rcases List.mem_cons.mp hd with h | h
        · rw [h]; exact digitChar_isDigit (Nat.mod_lt n (by norm_num))
        · exact hacc d h

theorem natDigits_isDigit (n : Nat) : ∀ c ∈ natDigits n, c.isDigit = true := by
  by_cases hz : n = 0
  · intro c hc
    rw [natDigits, if_pos hz] at hc
    simp at hc
    rw [hc]; rfl
  · rw [natDigits, if_neg hz]
    exact natDigitsAux_mem n n [] (by intro c hc; simp at hc)

theorem takeWhile_append_cons (p : Char → Bool) (xs : List Char)
    (hxs : ∀ x ∈ xs, p x = true) (y : Char) (hy : p y = false) (ys : List Char) :
    List.takeWhile p (xs ++ y :: ys) = xs := by
  induction xs with
  | nil => simp [List.takeWhile, hy]
  | cons a l ih =>
      have ha : p a = true := hxs a (List.mem_cons_self a l)
      have ihl := ih (fun x hx => hxs x (List.mem_cons_of_mem a hx))
      simp [List.takeWhile_cons, ha, ihl]

theorem afterLastUnderscore_spec (A B : List Char)
    (hB : ∀ c ∈ B, c ≠ '_') :
    afterLastUnderscore (A ++ '_' :: B) = B := by
  unfold afterLastUnderscore
  rw [List.reverse_append, List.reverse_cons, List.append_assoc,
    List.singleton_append,
    takeWhile_append_cons _ _ (fun x hx => by
      simpa using hB x (List.mem_reverse.mp hx)) '_' (by simp) _,
    List.reverse_reverse]

theorem afterLastUnderscore_certFilenameData (o : List Char) (t : Nat) :
    afterLastUnderscore (certFilenameData o t) = natDigits t ++ ".pdf".data := by
  unfold certFilenameData
  rw [show "certificate_".data ++ sanitizeChars o ++ '_' :: (natDigits t ++ ".pdf".data)
        = ("certificate_".data ++ sanitizeChars o) ++ '_' :: (natDigits t ++ ".pdf".data)
      from by rw [List.append_assoc]]
  refine afterLastUnderscore_spec _ _ ?_
  intro c hc
  rcases List.mem_append.mp hc with h | h
  · have := natDigits_isDigit t c h
    intro he
    rw [he] at this
    exact absurd this (by decide)
  · revert h
    intro h
    fin_cases h <;> decide

theorem certFilenameData_time_inj {o₁ o₂ : List Char} {t₁ t₂ : Nat}
    (h : certFilenameData o₁ t₁ = certFilenameData o₂ t₂) : t₁ = t₂ := by
  have h2 := congrArg afterLastUnderscore h
  rw [afterLastUnderscore_certFilenameData, afterLastUnderscore_certFilenameData] at h2
  exact natDigits_injective ((List.append_left_inj _).mp h2)

theorem certFilename_ne_of_time_ne {o₁ o₂ : String} {t₁ t₂ : Nat}
    (h : t₁ ≠ t₂) : certFilename o₁ t₁ ≠ certFilename o₂ t₂ := by
  intro he
  unfold certFilename at he
  exact h (certFilenameData_time_inj (by injection he))

/-! ### Lemmas about `verify_signature` -/

theorem isPyTrue_iff (j : Json) : isPyTrue j = true ↔ j = .bool true := by
  cases j <;> simp [isPyTrue]

theorem eqStr_iff (j : Json) (s : String) : eqStr j s = true ↔ j = .str s := by
  cases j <;> simp [eqStr]

theorem verify_signature_true_fields {p : Payload}
    (h : (verify_signature p).1 = true) :
    truthy (pget p "razorpay_order_id") = true ∧
    truthy (pget p "razorpay_payment_id") = true ∧
    truthy (pget p "razorpay_signature") = true := by
  by_contra hc
  have hf : (truthy (pget p "razorpay_order_id") &&
      truthy (pget p "razorpay_payment_id") &&
      truthy (pget p "razorpay_signature")) = false := by
    rcases Bool.eq_false_or_eq_true (truthy (pget p "razorpay_order_id")) with h1 | h1 <;>
      rcases Bool.eq_false_or_eq_true (truthy (pget p "razorpay_payment_id")) with h2 | h2 <;>
      rcases Bool.eq_false_or_eq_true (truthy (pget p "razorpay_signature")) with h3 | h3 <;>
      simp [h1, h2, h3] at hc ⊢
  rw [verify_signature, verify_signature_body] at h
  simp [hf] at h

theorem plookup_of_truthy {p : Payload} {k : String}
    (h : truthy (pget p k) = true) : plookup p k = some (pget p k) := by
  unfold pget at h ⊢
  cases hlk : plookup p k with
  | none => rw [hlk] at h; simp [truthy] at h
  | some j => simp

/-! ### Characterization of the `verify_payment` branches -/

theorem verify_payment_eq_400 {p : Payload} {err : Option String}
    (cfg : Config) (now : Nat) (er : Except String Unit)
    (hv : verify_signature p = (false, err)) :
    verify_payment cfg p now er =
      ⟨⟨400, .obj [("error", .str "Signature verification failed"),
                   ("details", match err with | some m => .str m | none => .null)]⟩,
       none, false⟩ := by
  simp only [verify_payment, hv]
  cases err <;> rfl

theorem verify_payment_eq_500_amount {p : Payload}
    (cfg : Config) (now : Nat) (er : Except String Unit)
    (hv : (verify_signature p).1 = true)
    (ha : pyInt ((plookup p "amount").getD (.num 0)) = none) :
    verify_payment cfg p now er =
      ⟨⟨500, .obj [("error", .str "Internal error generating certificate"),
                   ("details", .str "invalid literal for int() with base 10")]⟩,
       none, false⟩ := by
  rcases hvp : verify_signature p with ⟨b, e⟩
  rw [hvp] at hv
  cases b
  · exact absurd hv (by simp)
  · simp only [verify_payment, hvp, ha]

theorem verify_payment_eq_500_order {p : Payload}
    (cfg : Config) (now : Nat) (er : Except String Unit) (a : Int)
    (hv : (verify_signature p).1 = true)
    (ha : pyInt ((plookup p "amount").getD (.num 0)) = some a)
    (ho : isStrJson (orderIdOf p now) = false) :
    verify_payment cfg p now er =
      ⟨⟨500, .obj [("error", .str "Internal error generating certificate"),
                   ("details", .str "object has no attribute replace")]⟩,
       none, false⟩ := by
  rcases hvp : verify_signature p with ⟨b, e⟩
  rw [hvp] at hv
  cases b
  · exact absurd hv (by simp)
  · cases horder : orderIdOf p now <;>
      · rw [horder] at ho
        simp only [verify_payment, hvp, ha, horder] <;> simp [isStrJson] at ho

theorem verify_payment_eq_200 {p : Payload} {a : Int} {oid : String}
    (cfg : Config) (now : Nat) (er : Except String Unit)
    (hv : (verify_signature p).1 = true)
    (ha : pyInt ((plookup p "amount").getD (.num 0)) = some a)
    (ho : orderIdOf p now = .str oid) :
    verify_payment cfg p now er =
      ⟨⟨200, .obj [("status", .str "success"),
                   ("message", .str "Dummy payment accepted"),
                   ("payment", .obj [("order_id", .str oid),
                                     ("amount", .num a)]),
                   ("certificate_url", .str ("/certificate/" ++ certFilename oid now)),
                   ("email_sent", .bool (emailOutcome (canEmail cfg p) er).1),
                   ("email_error", (emailOutcome (canEmail cfg p) er).2.1)]⟩,
       some (certFilename oid now), (emailOutcome (canEmail cfg p) er).2.2⟩ := by
  rcases hvp : verify_signature p with ⟨b, e⟩
  rw [hvp] at hv
  cases b
  · exact absurd hv (by simp)
  · simp only [verify_payment, hvp, ha, ho]

/-! ### Claim theorems -/

/-- C1 (counterexample): a payload whose `simulate` field is `true`
but which lacks the three razorpay fields is rejected by
`verify_signature` with `"Missing fields"`, so dummy-mode verification
does not succeed on every payload with `simulate == true`. -/
theorem claim_C1_counterexample :
    plookup [(("simulate" : String), Json.bool true)] "simulate" = some (.bool true) ∧
    verify_signature [(("simulate" : String), Json.bool true)] =
      (false, some "Missing fields") :=
  ⟨rfl, rfl⟩

/-- C1 (amended): in dummy mode, for payloads whose
`razorpay_order_id`, `razorpay_payment_id` and `razorpay_signature`
fields are all present and truthy, `verify_signature` succeeds iff the
`simulate` field is the boolean `true` or the signature field is the
string `"sim_signature"`, and on every other such payload it fails
with the descriptive message
`"Dummy mode requires simulate:true or sim_signature"`; payloads where
one of the three fields is missing or falsy fail with
`"Missing fields"`. -/
theorem claim_C1 (p : Payload)
    (h1 : truthy (pget p "razorpay_order_id") = true)
    (h2 : truthy (pget p "razorpay_payment_id") = true)
    (h3 : truthy (pget p "razorpay_signature") = true) :
    ((verify_signature p).1 = true ↔
      (pget p "simulate" = .bool true ∨
       pget p "razorpay_signature" = .str "sim_signature")) ∧
    ((verify_signature p).1 = false →
      (verify_signature p).2 =
        some "Dummy mode requires simulate:true or sim_signature") := by
  rw [verify_signature, verify_signature_body]
  simp only [h1, h2, h3, Bool.and_self, Bool.and_true, Bool.not_true,
    Bool.false_eq_true, if_false]
  by_cases hs : isPyTrue (pget p "simulate") = true
  · rw [if_pos hs]
    simp [((isPyTrue_iff _).mp hs)]
  · rw [if_neg hs]
    by_cases hg : eqStr (pget p "razorpay_signature") "sim_signature" = true
    · rw [if_pos hg]
      simp [(eqStr_iff _ _).mp hg]
    · rw [if_neg hg]
      constructor
      · simp only [Bool.false_eq_true, false_iff]
        intro hor
        rcases hor with h | h
        · exact hs ((isPyTrue_iff _).mpr h)
        · exact hg ((eqStr_iff _ _).mpr h)
      · intro _; rfl

/-- Witness for C1 at a concrete payload. -/
theorem claim_C1_witness :
    (truthy (pget okPayload "razorpay_order_id") = true ∧
     truthy (pget okPayload "razorpay_payment_id") = true ∧
     truthy (pget okPayload "razorpay_signature") = true) ∧
    (((verify_signature okPayload).1 = true ↔
       (pget okPayload "simulate" = .bool true ∨
        pget okPayload "razorpay_signature" = .str "sim_signature")) ∧
     ((verify_signature okPayload).1 = false →
       (verify_signature okPayload).2 =
         some "Dummy mode requires simulate:true or sim_signature")) :=
  ⟨⟨rfl, rfl, rfl⟩, claim_C1 okPayload rfl rfl rfl⟩

/-- C2: whenever the request body's `amount` is not parseable as an
integer or parses to a non-positive integer, `create_order` responds
400 with a JSON error body. -/
theorem claim_C2 (data : Payload) (freshId key : String)
    (h : pyInt ((plookup data "amount").getD (.num 0)) = none ∨
         ∃ n, pyInt ((plookup data "amount").getD (.num 0)) = some n ∧ n ≤ 0) :
    (create_order data freshId key).status = 400 ∧
    ∃ m, (create_order data freshId key).body.getKey "error" = some (.str m) := by
  rcases h with h | ⟨n, hn, hle⟩
  · have hco : create_order data freshId key =
        ⟨400, .obj [("error", .str "Invalid amount")]⟩ := by
      unfold create_order; rw [h]
    rw [hco]
    exact ⟨rfl, ⟨"Invalid amount", rfl⟩⟩
  · have hco : create_order data freshId key =
        ⟨400, .obj [("error", .str "Amount must be > 0")]⟩ := by
      unfold create_order; rw [hn]; exact if_pos hle
    rw [hco]
    exact ⟨rfl, ⟨"Amount must be > 0", rfl⟩⟩

/-- Witness for C2: `amount = "abc"` and `amount = -5`. -/
theorem claim_C2_witness :
    (pyInt ((plookup [(("amount" : String), Json.str "abc")] "amount").getD (.num 0)) = none) ∧
    (create_order [(("amount" : String), Json.str "abc")] "u" "k").status = 400 ∧
    ∃ m, (create_order [(("amount" : String), Json.str "abc")] "u" "k").body.getKey "error"
          = some (.str m) :=
  ⟨rfl, claim_C2 [(("amount" : String), Json.str "abc")] "u" "k" (Or.inl rfl)⟩

/-- C9: `verify_signature` is total and never propagates an
exception: on every payload it returns either `(true, none)` or
`(false, some msg)` for some descriptive message. -/
theorem claim_C9 (p : Payload) :
    verify_signature p = (true, none) ∨
    ∃ m, verify_signature p = (false, some m) := by
  rw [verify_signature, verify_signature_body]
  by_cases h1 : (truthy (pget p "razorpay_order_id") &&
      truthy (pget p "razorpay_payment_id") &&
      truthy (pget p "razorpay_signature")) = true
  · simp only [h1, Bool.not_true, Bool.false_eq_true, if_false]
    by_cases h2 : isPyTrue (pget p "simulate") = true
    · rw [if_pos h2]; exact Or.inl rfl
    · rw [if_neg h2]
      by_cases h3 : eqStr (pget p "razorpay_signature") "sim_signature" = true
      · rw [if_pos h3]; exact Or.inl rfl
      · rw [if_neg h3]
        exact Or.inr ⟨"Dummy mode requires simulate:true or sim_signature", rfl⟩
  · rw [Bool.not_eq_true] at h1
    simp only [h1, Bool.not_false, if_true]
    exact Or.inr ⟨"Missing fields", rfl⟩

/-- C3: for a verified payment request that reaches the e-mail step
(signature valid, amount parseable, order id a string, donor e-mail
and SMTP configuration present), a failing e-mail send leaves the
certificate generated and kept, the response successful (HTTP 200),
`email_sent` false and the failure message reported inline in
`email_error`. -/
theorem claim_C3 (cfg : Config) (p : Payload) (now : Nat) (e : String)
    (a : Int) (oid : String)
    (hv : (verify_signature p).1 = true)
    (ha : pyInt ((plookup p "amount").getD (.num 0)) = some a)
    (ho : orderIdOf p now = .str oid)
    (hc : canEmail cfg p = true) :
    (verify_payment cfg p now (.error e)).resp.status = 200 ∧
    (verify_payment cfg p now (.error e)).certWritten = some (certFilename oid now) ∧
    (verify_payment cfg p now (.error e)).resp.body.getKey "email_sent"
      = some (.bool false) ∧
    (verify_payment cfg p now (.error e)).resp.body.getKey "email_error"
      = some (.str e) ∧
    (verify_payment cfg p now (.error e)).emailAttempted = true := by
  rw [verify_payment_eq_200 cfg now (.error e) hv ha ho, hc]
  exact ⟨rfl, rfl, rfl, rfl, rfl⟩

/-- Witness for C3 at a concrete verified request with a failing
e-mail send. -/
theorem claim_C3_witness :
    ((verify_signature emailPayload).1 = true ∧
     pyInt ((plookup emailPayload "amount").getD (.num 0)) = some 250 ∧
     orderIdOf emailPayload 1000 = .str "order_em" ∧
     canEmail fullConfig emailPayload = true) ∧
    ((verify_payment fullConfig emailPayload 1000 (.error "boom")).resp.status = 200 ∧
     (verify_payment fullConfig emailPayload 1000 (.error "boom")).certWritten
       = some (certFilename "order_em" 1000) ∧
     (verify_payment fullConfig emailPayload 1000 (.error "boom")).resp.body.getKey "email_sent"
       = some (.bool false) ∧
     (verify_payment fullConfig emailPayload 1000 (.error "boom")).resp.body.getKey "email_error"
       = some (.str "boom") ∧
     (verify_payment fullConfig emailPayload 1000 (.error "boom")).emailAttempted = true) :=
  ⟨⟨rfl, rfl, rfl, rfl⟩,
   claim_C3 fullConfig emailPayload 1000 "boom" 250 "order_em" rfl rfl rfl rfl⟩

/-- C4: serving a certificate for a name absent from the certificate
directory responds 404, and serving the name returned by
`generate_certificate` returns exactly the bytes it wrote, a
byte-identical round trip. -/
theorem claim_C4 :
    (∀ (fs : Fs) (f : String),
      fsLookup fs f = none → serve_certificate fs f = .notFound) ∧
    (∀ (fs : Fs) (o : String) (t : Nat) (b : List Nat),
      serve_certificate (generate_certificate fs o t b).2
        (generate_certificate fs o t b).1 = .file b) := by
  constructor
  · intro fs f h
    unfold serve_certificate
    rw [h]
  · intro fs o t b
    unfold serve_certificate generate_certificate fsLookup fsWrite
    simp [List.lookup]

/-- Witness for C4: an empty directory serves 404, and a freshly
generated certificate round-trips. -/
theorem claim_C4_witness :
    (fsLookup [] "c.pdf" = none ∧ serve_certificate [] "c.pdf" = .notFound) ∧
    serve_certificate (generate_certificate [] "ord" 7 [37, 80, 68, 70]).2
      (generate_certificate [] "ord" 7 [37, 80, 68, 70]).1 = .file [37, 80, 68, 70] :=
  ⟨⟨rfl, claim_C4.1 [] "c.pdf" rfl⟩, claim_C4.2 [] "ord" 7 [37, 80, 68, 70]⟩

/-- C5: `verify_payment` responds 400 whenever signature verification
fails (required field missing or signature invalid), and every
successful (200) response body is a JSON object with exactly the keys
`status`, `message`, `payment`, `certificate_url`, `email_sent`,
`email_error`. -/
theorem claim_C5 (cfg : Config) (p : Payload) (now : Nat)
    (er : Except String Unit) :
    ((verify_signature p).1 = false →
      (verify_payment cfg p now er).resp.status = 400) ∧
    ((verify_payment cfg p now er).resp.status = 200 →
      ∃ kvs, (verify_payment cfg p now er).resp.body = .obj kvs ∧
        kvs.map Prod.fst =
          ["status", "message", "payment", "certificate_url",
           "email_sent", "email_error"]) := by
  constructor
  · intro h
    rcases hvp : verify_signature p with ⟨b, err⟩
    rw [hvp] at h
    cases b
    · rw [verify_payment_eq_400 cfg now er hvp]
    · simp at h
  · intro h200
    rcases hvp : verify_signature p with ⟨b, err⟩
    cases b
    · rw [verify_payment_eq_400 cfg now er hvp] at h200
      simp at h200
    · have hv : (verify_signature p).1 = true := by rw [hvp]
      cases ha : pyInt ((plookup p "amount").getD (.num 0)) with
      | none =>
          rw [verify_payment_eq_500_amount cfg now er hv ha] at h200
          simp at h200
      | some a =>
          cases ho : orderIdOf p now
          case str s =>
            rw [verify_payment_eq_200 cfg now er hv ha ho]
            exact ⟨_, rfl, rfl⟩
          all_goals
            rw [verify_payment_eq_500_order cfg now er a hv ha (by rw [ho]; rfl)] at h200
          all_goals simp at h200

/-- Witness for C5: a payload with missing fields gets 400, and a
verified payload's 200 body carries exactly the six keys. -/
theorem claim_C5_witness :
    (verify_payment fullConfig ([] : Payload) 1 (.ok ())).resp.status = 400 ∧
    ∃ kvs, (verify_payment fullConfig okPayload 1 (.ok ())).resp.body = .obj kvs ∧
      kvs.map Prod.fst =
        ["status", "message", "payment", "certificate_url",
         "email_sent", "email_error"] :=
  ⟨(claim_C5 fullConfig [] 1 (.ok ())).1 rfl,
   (claim_C5 fullConfig okPayload 1 (.ok ())).2 rfl⟩

/-- C6 (counterexample): a request that passes dummy-mode signature
verification but carries `amount = "abc"` is answered with status 500
by the outer internal-error handler, not with the client-input
status 400 the claim states. -/
theorem claim_C6_counterexample :
    (verify_signature badAmountPayload).1 = true ∧
    pyInt ((plookup badAmountPayload "amount").getD (.num 0)) = none ∧
    (verify_payment fullConfig badAmountPayload 1700000000 (.ok ())).resp.status = 500 ∧
    (verify_payment fullConfig badAmountPayload 1700000000 (.ok ())).resp.status ≠ 400 :=
  ⟨rfl, rfl, rfl, by decide⟩

/-- C6 (amended): a `/verify_payment` request that passes signature
verification but carries an amount field not parseable as an integer
is caught by the handler's generic exception handler and reported as
an internal error with status 500 and a JSON error body (unlike
`create_order`, which reports invalid amounts with 400). -/
theorem claim_C6 (cfg : Config) (p : Payload) (now : Nat)
    (er : Except String Unit)
    (hv : (verify_signature p).1 = true)
    (ha : pyInt ((plookup p "amount").getD (.num 0)) = none) :
    (verify_payment cfg p now er).resp.status = 500 ∧
    ∃ m, (verify_payment cfg p now er).resp.body.getKey "error" = some (.str m) := by
  rw [verify_payment_eq_500_amount cfg now er hv ha]
  exact ⟨rfl, ⟨"Internal error generating certificate", rfl⟩⟩

/-- Witness for C6 at the concrete unparseable-amount payload. -/
theorem claim_C6_witness :
    ((verify_signature badAmountPayload).1 = true ∧
     pyInt ((plookup badAmountPayload "amount").getD (.num 0)) = none) ∧
    ((verify_payment fullConfig badAmountPayload 5 (.ok ())).resp.status = 500 ∧
     ∃ m, (verify_payment fullConfig badAmountPayload 5 (.ok ())).resp.body.getKey "error"
            = some (.str m)) :=
  ⟨⟨rfl, rfl⟩, claim_C6 fullConfig badAmountPayload 5 (.ok ()) rfl rfl⟩

/-- C7 (counterexample): two distinct certificate-generation calls in
the same second — distinct order ids `"a/b"` and `"a_b"`, distinct PDF
contents — produce the same file name, so the embedded timestamp does
not make generated file names distinct. -/
theorem claim_C7_counterexample :
    (generate_certificate [] "a/b" 1700000000 [1]).1
      = (generate_certificate [] "a_b" 1700000000 [2]).1 ∧
    ("a/b" : String) ≠ "a_b" :=
  ⟨rfl, by decide⟩

/-- C7 (amended): every generated certificate file name embeds the
sanitized order id (`/` replaced by `_`) and the whole-second
timestamp, and two generation calls receive distinct file names
whenever their timestamps differ; calls within the same second whose
order ids sanitize to the same string collide. -/
theorem claim_C7 :
    (∀ (o : String) (t : Nat),
      certFilename o t =
        String.mk ("certificate_".data ++ sanitizeChars o.data ++
          '_' :: (natDigits t ++ ".pdf".data))) ∧
    (∀ (o₁ o₂ : String) (t₁ t₂ : Nat),
      t₁ ≠ t₂ → certFilename o₁ t₁ ≠ certFilename o₂ t₂) :=
  ⟨fun _ _ => rfl, fun _ _ _ _ h => certFilename_ne_of_time_ne h⟩

/-- Witness for C7: differing timestamps give differing file names. -/
theorem claim_C7_witness :
    (100 ≠ 101) ∧ certFilename "order_x" 100 ≠ certFilename "order_x" 101 :=
  ⟨by decide, claim_C7.2 "order_x" "order_x" 100 101 (by decide)⟩

/-- C8: every successful `/verify_payment` response reports inside its
`payment` object exactly the `razorpay_order_id` string supplied in
the request; the fallbacks to `order_id` or a time-based default never
fire on a success. -/
theorem claim_C8 (cfg : Config) (p : Payload) (now : Nat)
    (er : Except String Unit)
    (h200 : (verify_payment cfg p now er).resp.status = 200) :
    ∃ oid : String, plookup p "razorpay_order_id" = some (.str oid) ∧
      ((verify_payment cfg p now er).resp.body.getKey "payment").bind
        (fun j => j.getKey "order_id") = some (.str oid) := by
  rcases hvp : verify_signature p with ⟨b, err⟩
  cases b
  · rw [verify_payment_eq_400 cfg now er hvp] at h200
    simp at h200
  · have hv : (verify_signature p).1 = true := by rw [hvp]
    have htru := (verify_signature_true_fields hv).1
    have hlk := plookup_of_truthy htru
    have hord : orderIdOf p now = pget p "razorpay_order_id" := by
      unfold orderIdOf
      rw [hlk]
      rfl
    cases ha : pyInt ((plookup p "amount").getD (.num 0)) with
    | none =>
        rw [verify_payment_eq_500_amount cfg now er hv ha] at h200
        simp at h200
    | some a =>
        cases ho : orderIdOf p now
        case str s =>
          refine ⟨s, ?_, ?_⟩
          · rw [hlk, ← hord, ho]
          · rw [verify_payment_eq_200 cfg now er hv ha ho]
            rfl
        all_goals
          rw [verify_payment_eq_500_order cfg now er a hv ha (by rw [ho]; rfl)] at h200
        all_goals simp at h200

/-- Witness for C8 at a concrete verified request. -/
theorem claim_C8_witness :
    ∃ oid : String,
      plookup okPayload "razorpay_order_id" = some (.str oid) ∧
      ((verify_payment fullConfig okPayload 1 (.ok ())).resp.body.getKey "payment").bind
        (fun j => j.getKey "order_id") = some (.str oid) :=
  claim_C8 fullConfig okPayload 1 (.ok ()) rfl

/-- C10: when the payload has no `email` field or any of `SMTP_HOST`,
`SMTP_USER`, `SMTP_PASS` is unset, `verify_payment` never attempts an
e-mail send, and a successful response reports `email_sent = false`
and `email_error = null`. -/
theorem claim_C10 (cfg : Config) (p : Payload) (now : Nat)
    (er : Except String Unit)
    (h : plookup p "email" = none ∨ cfg.smtpHost = "" ∨
         cfg.smtpUser = "" ∨ cfg.smtpPass = "") :
    (verify_payment cfg p now er).emailAttempted = false ∧
    ((verify_payment cfg p now er).resp.status = 200 →
      (verify_payment cfg p now er).resp.body.getKey "email_sent"
        = some (.bool false) ∧
      (verify_payment cfg p now er).resp.body.getKey "email_error"
        = some .null) := by
  have hcan : canEmail cfg p = false := by
    unfold canEmail
    rcases h with h | h | h | h
    · simp [pget, h, truthy]
    · simp [h]
    · simp [h]
    · simp [h]
  rcases hvp : verify_signature p with ⟨b, err⟩
  cases b
  · rw [verify_payment_eq_400 cfg now er hvp]
    refine ⟨rfl, fun h200 => ?_⟩
    simp at h200
  · have hv : (verify_signature p).1 = true := by rw [hvp]
    cases ha : pyInt ((plookup p "amount").getD (.num 0)) with
    | none =>
        rw [verify_payment_eq_500_amount cfg now er hv ha]
        refine ⟨rfl, fun h200 => ?_⟩
        simp at h200
    | some a =>
        cases ho : orderIdOf p now
        case str s =>
          rw [verify_payment_eq_200 cfg now er hv ha ho, hcan]
          exact ⟨rfl, fun _ => ⟨rfl, rfl⟩⟩
        all_goals
          rw [verify_payment_eq_500_order cfg now er a hv ha (by rw [ho]; rfl)]
        all_goals refine ⟨rfl, fun h200 => ?_⟩
        all_goals simp at h200

/-- Witness for C10: full payload but no SMTP user configured. -/
theorem claim_C10_witness :
    ((verify_payment ⟨"smtp.example.com", "", "pass"⟩ emailPayload 9 (.ok ())).emailAttempted
        = false) ∧
    ((verify_payment ⟨"smtp.example.com", "", "pass"⟩ emailPayload 9 (.ok ())).resp.status = 200 →
      (verify_payment ⟨"smtp.example.com", "", "pass"⟩ emailPayload 9 (.ok ())).resp.body.getKey
          "email_sent" = some (.bool false) ∧
      (verify_payment ⟨"smtp.example.com", "", "pass"⟩ emailPayload 9 (.ok ())).resp.body.getKey
          "email_error" = some .null) :=
  claim_C10 ⟨"smtp.example.com", "", "pass"⟩ emailPayload 9 (.ok ())
    (Or.inr (Or.inr (Or.inl rfl)))

end NgoBackend
